import Mathlib

/-!
Verification development for the `syndata` synthetic biosignal generator
(`src/tools/synthetic-data-generator/syndata/generator.py`).

Modelling conventions:
* Python floats are modelled as `ℚ` (exact arithmetic).
* `datetime` instants are modelled as `ℚ` seconds since an arbitrary epoch;
  `timedelta(seconds = x)` is addition of `x`.  The ambient wall clock
  (`datetime.now()`) is an explicit parameter `now : ℚ` of every operation
  that may default to it: two distinct program runs are modelled by two
  distinct values of `now`.
* The Python `random` module is a single process-wide PRNG.  It is modelled
  as one explicit state of type `Nat` threaded through every operation.
  Constructing a `BiosignalGenerator` transforms that shared state
  (`random.seed(seed)` when a seed is given, identity otherwise).
* The concrete distributions of the stdlib PRNG (Mersenne Twister,
  `random.gauss`) are outside the repository; they are modelled by a small
  concrete deterministic generator exposing the only properties the source
  relies on: `random()`/`uniform` draws lie in the documented ranges,
  `choice [-1, 1]` returns `-1` or `1`, `randint a b` lies in `[a, b]`,
  and every draw is a deterministic function of the current state.
  `gauss mean std` is `mean + std * z` for a state-determined `z`.
-/

namespace Syndata

/-- Model of the process-wide PRNG state: one step of a linear congruential
generator; each primitive draw consumes one step. -/
def lcgNext (g : Nat) : Nat := (g * 1103515245 + 12345) % 2147483648

/-- Model of `random.seed(n)`: the state the shared PRNG is reset to. -/
def pySeed (n : Nat) : Nat := (n * 2654435761 + 1013904223) % 2147483648

/-- `BiosignalGenerator.__init__`: `random.seed(seed)` is called on the
process-wide PRNG when `seed` is not `None`; otherwise the shared state is
left unchanged.  The result is the shared PRNG state after construction. -/
def constructGen (seed : Option Nat) (g : Nat) : Nat :=
  match seed with
  | some n => pySeed n
  | none => g

/-- Model of `random.random()`: a state-determined value in `[0, 1)`. -/
def randomUnit (g : Nat) : ℚ × Nat :=
  let g1 := lcgNext g
  (((g1 % 1000 : ℕ) : ℚ) / 1000, g1)

/-- Model of `random.uniform(a, b) = a + (b - a) * random.random()`. -/
def uniform (a b : ℚ) (g : Nat) : ℚ × Nat :=
  let u := randomUnit g
  (a + (b - a) * u.1, u.2)

/-- Model of `random.gauss(mean, std)`: `mean + std * z` where
`z ∈ [-10, 10]` is determined by the state.  (The true sampler is unbounded;
no theorem below depends on the range of `z`.) -/
def gauss (mean std : ℚ) (g : Nat) : ℚ × Nat :=
  let g1 := lcgNext g
  (mean + std * ((((g1 % 2001 : ℕ) : ℚ) - 1000) / 100), g1)

/-- Model of `random.choice([-1, 1])`: a state-determined element of
`{-1, 1}`. -/
def choicePM (g : Nat) : ℚ × Nat :=
  let g1 := lcgNext g
  (if g1 % 2 = 0 then -1 else 1, g1)

/-- Model of `random.randint(a, b)` (both endpoints inclusive). -/
def randint (a b : ℕ) (g : Nat) : ℕ × Nat :=
  let g1 := lcgNext g
  (a + g1 % (b - a + 1), g1)

/-- Python `int(q)` on a float: truncation toward zero. -/
def truncToZero (q : ℚ) : ℤ :=
  if 0 ≤ q then ⌊q⌋ else -⌊-q⌋

/-- `EmotionScenario` dataclass. -/
structure EmotionScenario where
  name : String
  emotion : String
  hr_mean : ℚ
  hr_std : ℚ
  rr_mean : ℚ
  rr_std : ℚ
  duration_seconds : ℤ := 30
  samples_per_second : ℚ := 1
deriving DecidableEq

/-- `CALM_SCENARIO` predefined descriptor. -/
def CALM_SCENARIO : EmotionScenario :=
  { name := "Calm - Resting", emotion := "Calm",
    hr_mean := 65, hr_std := 5, rr_mean := 920, rr_std := 50,
    duration_seconds := 60 }

/-- `STRESSED_SCENARIO` predefined descriptor. -/
def STRESSED_SCENARIO : EmotionScenario :=
  { name := "Stressed - Working", emotion := "Stressed",
    hr_mean := 85, hr_std := 8, rr_mean := 705, rr_std := 25,
    duration_seconds := 60 }

/-- `AMUSED_SCENARIO` predefined descriptor. -/
def AMUSED_SCENARIO : EmotionScenario :=
  { name := "Amused - Laughing", emotion := "Amused",
    hr_mean := 80, hr_std := 10, rr_mean := 750, rr_std := 60,
    duration_seconds := 60 }

/-- One generated data point (the dict built by the render methods). -/
structure DataPoint where
  timestamp : ℚ
  hr : ℚ
  rr_intervals_ms : List ℚ
  emotion : String
  scenario : String
deriving DecidableEq, Inhabited

namespace BiosignalGenerator

/-- `BiosignalGenerator.generate_hr_sample`: one Gaussian draw clamped to
`[30, 200]`. -/
def generate_hr_sample (mean std : ℚ) (g : Nat) : ℚ × Nat :=
  let h := gauss mean std g
  (max 30 (min 200 h.1), h.2)

/-- One loop iteration of `generate_rr_intervals` up to (not including) the
clamp: the fresh Gaussian draw, replaced by `prev ± uniform(0, 100)` when it
is more than `max_jump = 100` away from `prev`. -/
def rrCandidate (mean std prev : ℚ) (g : Nat) : ℚ × Nat :=
  let t := gauss mean std g
  if |t.1 - prev| > 100 then
    let s := choicePM t.2
    let u := uniform 0 100 s.2
    (prev + s.1 * u.1, u.2)
  else
    t

/-- The loop of `generate_rr_intervals`: each candidate is clamped to
`[300, 2000]`, stored, and becomes the new `prev_interval`. -/
def rrStep (mean std : ℚ) : ℕ → ℚ → Nat → List ℚ × Nat
  | 0, _, g => ([], g)
  | n + 1, prev, g =>
    let c := rrCandidate mean std prev g
    let interval := max 300 (min 2000 c.1)
    let rest := rrStep mean std n interval c.2
    (interval :: rest.1, rest.2)

/-- `BiosignalGenerator.generate_rr_intervals`: `count` intervals from a
bounded random walk whose initial `prev_interval` is `mean`. -/
def generate_rr_intervals (mean std : ℚ) (count : ℕ) (g : Nat) :
    List ℚ × Nat :=
  rrStep mean std count mean g

/-- The common draw sequence of the render loops: one HR sample, then
`random.randint(8, 15)`, then that many RR intervals (Python evaluates the
`count=` argument before the call). -/
def synthSample (hm hs rm rs : ℚ) (g : Nat) : ℚ × List ℚ × Nat :=
  let h := generate_hr_sample hm hs g
  let c := randint 8 15 h.2
  let r := generate_rr_intervals rm rs c.1 c.2
  (h.1, r.1, r.2)

/-- One iteration of the `generate_scenario` loop at sample index `i`. -/
def scenPoint (sc : EmotionScenario) (start : ℚ) (i : ℕ) (g : Nat) :
    DataPoint × Nat :=
  let s := synthSample sc.hr_mean sc.hr_std sc.rr_mean sc.rr_std g
  ({ timestamp := start + (i : ℚ) / sc.samples_per_second,
     hr := s.1, rr_intervals_ms := s.2.1,
     emotion := sc.emotion, scenario := sc.name }, s.2.2)

/-- The `for i in range(total_samples)` loop of `generate_scenario`. -/
def scenLoop (sc : EmotionScenario) (start : ℚ) :
    List ℕ → Nat → List DataPoint × Nat
  | [], g => ([], g)
  | i :: is, g =>
    let p := scenPoint sc start i g
    let rest := scenLoop sc start is p.2
    (p.1 :: rest.1, rest.2)

/-- `BiosignalGenerator.generate_scenario`.  `start_time = None` defaults to
the wall clock `now`; `total_samples = int(duration_seconds *
samples_per_second)` truncates toward zero, and `range` of a non-positive
count is empty. -/
def generate_scenario (sc : EmotionScenario) (start_time : Option ℚ)
    (now : ℚ) (g : Nat) : List DataPoint × Nat :=
  let start := start_time.getD now
  let total := truncToZero ((sc.duration_seconds : ℚ) * sc.samples_per_second)
  scenLoop sc start (List.range total.toNat) g

/-- The running-clock update of `generate_session`: the last timestamp plus
one second when the scenario rendered any points, otherwise unchanged. -/
def nextStart (pts : List DataPoint) (current : ℚ) : ℚ :=
  match pts.getLast? with
  | some p => p.timestamp + 1
  | none => current

/-- The `for scenario in scenarios` loop of `generate_session`. -/
def sessionLoop : List EmotionScenario → ℚ → Nat → List DataPoint × Nat
  | [], _, g => ([], g)
  | sc :: rest, current, g =>
    let r := generate_scenario sc (some current) 0 g
    let rr := sessionLoop rest (nextStart r.1 current) r.2
    (r.1 ++ rr.1, rr.2)

/-- `BiosignalGenerator.generate_session`. -/
def generate_session (scs : List EmotionScenario) (start_time : Option ℚ)
    (now : ℚ) (g : Nat) : List DataPoint × Nat :=
  sessionLoop scs (start_time.getD now) g

/-- The interpolation factor of `generate_transition`:
`i / (total_samples - 1)` when `total_samples > 1`, else `1.0`. -/
def interpFactor (total : ℤ) (i : ℕ) : ℚ :=
  if 1 < total then (i : ℚ) / ((total : ℚ) - 1) else 1

/-- Linear parameter interpolation `a + factor * (b - a)`. -/
def interp (a b factor : ℚ) : ℚ := a + factor * (b - a)

/-- One iteration of the `generate_transition` loop at sample index `i`. -/
def transPoint (fromS toS : EmotionScenario) (total : ℤ) (start : ℚ)
    (i : ℕ) (g : Nat) : DataPoint × Nat :=
  let factor := interpFactor total i
  let s := synthSample (interp fromS.hr_mean toS.hr_mean factor)
    (interp fromS.hr_std toS.hr_std factor)
    (interp fromS.rr_mean toS.rr_mean factor)
    (interp fromS.rr_std toS.rr_std factor) g
  ({ timestamp := start + (i : ℚ),
     hr := s.1, rr_intervals_ms := s.2.1,
     emotion := fromS.emotion ++ "→" ++ toS.emotion,
     scenario := "Transition (" ++ toString (truncToZero (factor * 100)) ++ "%)" },
   s.2.2)

/-- The `for i in range(total_samples)` loop of `generate_transition`. -/
def transLoop (fromS toS : EmotionScenario) (total : ℤ) (start : ℚ) :
    List ℕ → Nat → List DataPoint × Nat
  | [], g => ([], g)
  | i :: is, g =>
    let p := transPoint fromS toS total start i g
    let rest := transLoop fromS toS total start is p.2
    (p.1 :: rest.1, rest.2)

/-- `BiosignalGenerator.generate_transition`. -/
def generate_transition (fromS toS : EmotionScenario)
    (transition_seconds : ℤ) (start_time : Option ℚ) (now : ℚ) (g : Nat) :
    List DataPoint × Nat :=
  let start := start_time.getD now
  transLoop fromS toS transition_seconds start
    (List.range transition_seconds.toNat) g

end BiosignalGenerator

/-- The predefined scenario table used by both convenience functions. -/
def scenariosTable : List (String × EmotionScenario) :=
  [("Calm", CALM_SCENARIO), ("Stressed", STRESSED_SCENARIO),
   ("Amused", AMUSED_SCENARIO)]

/-- Module-level convenience `generate_scenario(emotion, ...)`: resolves the
emotion name against the predefined table (`ValueError` on an unknown name,
modelled as `Except.error`), overrides `duration_seconds`, constructs a
`BiosignalGenerator` (transforming the shared PRNG state `g`), and renders.
The source overrides `duration_seconds` by assigning to the shared table
entry in place; the per-call effect is the copy-update below (the table is
not threaded between calls). -/
def generate_scenario (emotion : String) (duration_seconds : ℤ)
    (seed : Option Nat) (start_time : Option ℚ) (now : ℚ) (g : Nat) :
    Except String (List DataPoint × Nat) :=
  match scenariosTable.lookup emotion with
  | none => .error ("Unknown emotion: " ++ emotion)
  | some sc0 =>
    let sc := { sc0 with duration_seconds := duration_seconds }
    .ok (BiosignalGenerator.generate_scenario sc start_time now
      (constructGen seed g))

/-- The scenario-list construction loop of the convenience
`generate_session`: `ValueError` at the first unknown emotion name,
otherwise each resolved descriptor with `duration_seconds` overridden. -/
def resolveEmotions (emotions : List String) (duration_per_emotion : ℤ) :
    Except String (List EmotionScenario) :=
  match emotions with
  | [] => .ok []
  | e :: rest =>
    match scenariosTable.lookup e with
    | none => .error ("Unknown emotion: " ++ e)
    | some sc0 =>
      (resolveEmotions rest duration_per_emotion).map
        (fun l => { sc0 with duration_seconds := duration_per_emotion } :: l)

/-- The `include_transitions = True` loop of the convenience
`generate_session`: each scenario render is followed (except after the last
scenario) by a 15-second transition to the next one, with the same
last-timestamp-plus-one-second chaining. -/
def sessionWithTransitions :
    List EmotionScenario → ℚ → Nat → List DataPoint × Nat
  | [], _, g => ([], g)
  | [sc], current, g => BiosignalGenerator.generate_scenario sc (some current) 0 g
  | sc :: next :: rest, current, g =>
    let r := BiosignalGenerator.generate_scenario sc (some current) 0 g
    let c1 := BiosignalGenerator.nextStart r.1 current
    let t := BiosignalGenerator.generate_transition sc next 15 (some c1) 0 r.2
    let c2 := BiosignalGenerator.nextStart t.1 c1
    let rest2 := sessionWithTransitions (next :: rest) c2 t.2
    (r.1 ++ t.1 ++ rest2.1, rest2.2)

/-- Module-level convenience `generate_session(emotions, ...)`. -/
def generate_session (emotions : List String) (duration_per_emotion : ℤ)
    (include_transitions : Bool) (seed : Option Nat) (start_time : Option ℚ)
    (now : ℚ) (g : Nat) : Except String (List DataPoint × Nat) :=
  (resolveEmotions emotions duration_per_emotion).map fun scs =>
    let g1 := constructGen seed g
    if include_transitions then
      sessionWithTransitions scs (start_time.getD now) g1
    else
      BiosignalGenerator.generate_session scs start_time now g1

/-- One render-method call on a `BiosignalGenerator`, with its arguments. -/
inductive GenCall where
  | scen (sc : EmotionScenario) (start : Option ℚ)
  | sess (scs : List EmotionScenario) (start : Option ℚ)
  | trans (a b : EmotionScenario) (n : ℤ) (start : Option ℚ)

/-- Execute one call against the shared PRNG state `g` under wall clock
`now`. -/
def runCall (now : ℚ) (g : Nat) : GenCall → List DataPoint × Nat
  | .scen sc start => BiosignalGenerator.generate_scenario sc start now g
  | .sess scs start => BiosignalGenerator.generate_session scs start now g
  | .trans a b n start => BiosignalGenerator.generate_transition a b n start now g

/-- Execute a sequence of calls, threading the shared PRNG state, and
collect each call's rendered output. -/
def runCalls (now : ℚ) (g : Nat) : List GenCall → List (List DataPoint)
  | [] => []
  | c :: cs =>
    let r := runCall now g c
    r.1 :: runCalls now r.2 cs

/-- Whether a call passes an explicit (non-`None`) start time. -/
def explicitStart : GenCall → Bool
  | .scen _ start => start.isSome
  | .sess _ start => start.isSome
  | .trans _ _ _ start => start.isSome

/-- `generate_scenario` as a method call on a descriptor object: the result
together with the descriptor's field record after the call.  The method body
contains no attribute assignment, so the post-call record is the argument. -/
def scenarioCall (sc : EmotionScenario) (start_time : Option ℚ) (now : ℚ)
    (g : Nat) : (List DataPoint × Nat) × EmotionScenario :=
  (BiosignalGenerator.generate_scenario sc start_time now g, sc)

/-- `generate_session` as a method call: result plus the post-call field
records of all descriptor arguments. -/
def sessionCall (scs : List EmotionScenario) (start_time : Option ℚ)
    (now : ℚ) (g : Nat) : (List DataPoint × Nat) × List EmotionScenario :=
  (BiosignalGenerator.generate_session scs start_time now g, scs)

/-- `generate_transition` as a method call: result plus the post-call field
records of both descriptor arguments. -/
def transitionCall (fromS toS : EmotionScenario) (n : ℤ)
    (start_time : Option ℚ) (now : ℚ) (g : Nat) :
    (List DataPoint × Nat) × EmotionScenario × EmotionScenario :=
  (BiosignalGenerator.generate_transition fromS toS n start_time now g,
   fromS, toS)

/-- The shape of the timestamp-monotonicity property:
`timestamps[i] ≤ timestamps[i+1]` for every valid index `i`. -/
def tsMono (l : List DataPoint) : Prop :=
  ∀ (i : ℕ) (p q : DataPoint), l.get? i = some p → l.get? (i + 1) = some q →
    p.timestamp ≤ q.timestamp

/-- A one-point scenario used to instantiate theorems at concrete inputs. -/
def demoScenario : EmotionScenario :=
  { name := "Demo", emotion := "Calm", hr_mean := 65, hr_std := 0,
    rr_mean := 920, rr_std := 0, duration_seconds := 1,
    samples_per_second := 1 }

/-- The single data point rendered by `demoScenario` from PRNG state `0`:
the HR draw leaves state `12345`, `randint 8 15` then yields `14`, and all
fourteen RR draws stay at the mean `920` (`rr_std = 0`). -/
def demoPoint : DataPoint :=
  { timestamp := 0, hr := 65,
    rr_intervals_ms :=
      [920, 920, 920, 920, 920, 920, 920, 920, 920, 920, 920, 920, 920, 920],
    emotion := "Calm", scenario := "Demo" }

/-- The single point rendered by
`generate_transition demoScenario demoScenario 1` from state `0`. -/
def demoTransPoint : DataPoint :=
  { timestamp := 0, hr := 65,
    rr_intervals_ms :=
      [920, 920, 920, 920, 920, 920, 920, 920, 920, 920, 920, 920, 920, 920],
    emotion := "Calm→Calm", scenario := "Transition (100%)" }

end Syndata

namespace Syndata

open BiosignalGenerator

theorem randomUnit_bounds (g : Nat) :
    0 ≤ (randomUnit g).1 ∧ (randomUnit g).1 < 1 := by
  simp only [randomUnit]
  constructor
  · positivity
  · rw [div_lt_one (by norm_num)]
    exact_mod_cast Nat.mod_lt _ (by norm_num)

theorem uniform_bounds (g : Nat) :
    0 ≤ (uniform 0 100 g).1 ∧ (uniform 0 100 g).1 ≤ 100 := by
  have h := randomUnit_bounds g
  simp only [uniform, zero_add, sub_zero]
  constructor
  · nlinarith [h.1]
  · nlinarith [h.1, h.2]

theorem choicePM_abs (g : Nat) : |(choicePM g).1| = 1 := by
  simp only [choicePM]
  split <;> norm_num

theorem clamp_bounds (lo hi x : ℚ) (h : lo ≤ hi) :
    lo ≤ max lo (min hi x) ∧ max lo (min hi x) ≤ hi := by
  refine ⟨le_max_left _ _, max_le h (min_le_left _ _)⟩

theorem generate_hr_sample_bounds (mean std : ℚ) (g : Nat) :
    30 ≤ (generate_hr_sample mean std g).1 ∧
      (generate_hr_sample mean std g).1 ≤ 200 := by
  simp only [generate_hr_sample]
  exact clamp_bounds 30 200 _ (by norm_num)

theorem rrCandidate_close (mean std prev : ℚ) (g : Nat) :
    |(rrCandidate mean std prev g).1 - prev| ≤ 100 := by
  simp only [rrCandidate]
  split
  · have hu := uniform_bounds (choicePM (gauss mean std g).2).2
    have hs := choicePM_abs (gauss mean std g).2
    simp only [add_sub_cancel_left, abs_mul, hs, one_mul]
    rw [abs_of_nonneg hu.1]
    exact hu.2
  · next h => exact le_of_not_lt h

theorem rrStep_mem_bounds (mean std : ℚ) :
    ∀ (n : ℕ) (prev : ℚ) (g : Nat) (x : ℚ),
      x ∈ (rrStep mean std n prev g).1 → 300 ≤ x ∧ x ≤ 2000 := by
  intro n
  induction n with
  | zero => intro prev g x hx; simp [rrStep] at hx
  | succ n ih =>
    intro prev g x hx
    simp only [rrStep, List.mem_cons] at hx
    rcases hx with rfl | hx
    · exact clamp_bounds 300 2000 _ (by norm_num)
    · exact ih _ _ _ hx

theorem rrStep_length (mean std : ℚ) :
    ∀ (n : ℕ) (prev : ℚ) (g : Nat), (rrStep mean std n prev g).1.length = n := by
  intro n
  induction n with
  | zero => intro prev g; simp [rrStep]
  | succ n ih => intro prev g; simp [rrStep, ih]

theorem generate_rr_intervals_mem_bounds (mean std : ℚ) (count : ℕ) (g : Nat)
    (x : ℚ) (hx : x ∈ (generate_rr_intervals mean std count g).1) :
    300 ≤ x ∧ x ≤ 2000 :=
  rrStep_mem_bounds mean std count mean g x hx

theorem scenLoop_timestamps (sc : EmotionScenario) (start : ℚ) :
    ∀ (l : List ℕ) (g : Nat),
      (scenLoop sc start l g).1.map DataPoint.timestamp =
        l.map (fun i : ℕ => start + (i : ℚ) / sc.samples_per_second) := by
  intro l
  induction l with
  | nil => intro g; simp [scenLoop]
  | cons i is ih => intro g; simp [scenLoop, scenPoint, ih]

theorem scenLoop_length (sc : EmotionScenario) (start : ℚ) :
    ∀ (l : List ℕ) (g : Nat), (scenLoop sc start l g).1.length = l.length := by
  intro l
  induction l with
  | nil => intro g; simp [scenLoop]
  | cons i is ih => intro g; simp [scenLoop, ih]

theorem scenLoop_mem_ranges (sc : EmotionScenario) (start : ℚ) :
    ∀ (l : List ℕ) (g : Nat) (p : DataPoint),
      p ∈ (scenLoop sc start l g).1 →
        (30 ≤ p.hr ∧ p.hr ≤ 200) ∧
          ∀ r ∈ p.rr_intervals_ms, 300 ≤ r ∧ r ≤ 2000 := by
  intro l
  induction l with
  | nil => intro g p hp; simp [scenLoop] at hp
  | cons i is ih =>
    intro g p hp
    simp only [scenLoop, List.mem_cons] at hp
    rcases hp with rfl | hp
    · constructor
      · simpa only [scenPoint, synthSample] using
          generate_hr_sample_bounds sc.hr_mean sc.hr_std g
      · intro r hr
        simp only [scenPoint, synthSample] at hr
        exact generate_rr_intervals_mem_bounds _ _ _ _ r hr
    · exact ih _ _ hp

theorem transLoop_timestamps (fromS toS : EmotionScenario) (total : ℤ)
    (start : ℚ) :
    ∀ (l : List ℕ) (g : Nat),
      (transLoop fromS toS total start l g).1.map DataPoint.timestamp =
        l.map (fun i : ℕ => start + (i : ℚ)) := by
  intro l
  induction l with
  | nil => intro g; simp [transLoop]
  | cons i is ih => intro g; simp [transLoop, transPoint, ih]

theorem transLoop_length (fromS toS : EmotionScenario) (total : ℤ)
    (start : ℚ) :
    ∀ (l : List ℕ) (g : Nat),
      (transLoop fromS toS total start l g).1.length = l.length := by
  intro l
  induction l with
  | nil => intro g; simp [transLoop]
  | cons i is ih => intro g; simp [transLoop, ih]

theorem transLoop_labels (fromS toS : EmotionScenario) (total : ℤ)
    (start : ℚ) :
    ∀ (l : List ℕ) (g : Nat),
      (transLoop fromS toS total start l g).1.map
          (fun p => (p.emotion, p.scenario)) =
        l.map (fun i =>
          (fromS.emotion ++ "→" ++ toS.emotion,
           "Transition (" ++
             toString (truncToZero (interpFactor total i * 100)) ++ "%)")) := by
  intro l
  induction l with
  | nil => intro g; simp [transLoop]
  | cons i is ih => intro g; simp [transLoop, transPoint, ih]

theorem tsMono_of_chain {l : List DataPoint}
    (h : List.Chain' (fun p q => p.timestamp ≤ q.timestamp) l) :
    tsMono l := by
  intro i p q hp hq
  rw [List.get?_eq_some] at hp hq
  obtain ⟨hi, rfl⟩ := hp
  obtain ⟨hj, rfl⟩ := hq
  exact List.chain'_iff_get.mp h i (by omega)

theorem chain_of_map_mono {l : List DataPoint} {f : ℕ → ℚ} {idx : List ℕ}
    (hmap : l.map DataPoint.timestamp = idx.map f)
    (hpair : idx.Pairwise (· < ·)) (hf : ∀ i j : ℕ, i < j → f i ≤ f j) :
    List.Chain' (fun p q => p.timestamp ≤ q.timestamp) l := by
  rw [← List.chain'_map (f := DataPoint.timestamp)
    (R := fun a b : ℚ => a ≤ b), hmap]
  apply List.Pairwise.chain'
  rw [List.pairwise_map]
  exact hpair.imp (fun hab => hf _ _ hab)

theorem mem_of_mem_getLast {α : Type} {l : List α} {a : α}
    (h : a ∈ l.getLast?) : a ∈ l := by
  obtain ⟨hne, rfl⟩ := List.mem_getLast?_eq_getLast h
  exact List.getLast_mem _

theorem scen_chain (sc : EmotionScenario) (start_time : Option ℚ) (now : ℚ)
    (g : Nat) (h : 0 < sc.samples_per_second) :
    List.Chain' (fun p q => p.timestamp ≤ q.timestamp)
      (BiosignalGenerator.generate_scenario sc start_time now g).1 := by
  simp only [BiosignalGenerator.generate_scenario]
  apply chain_of_map_mono (scenLoop_timestamps sc _ _ g)
    (List.pairwise_lt_range _)
  intro i j hij
  have h2 : (i : ℚ) ≤ (j : ℚ) := by exact_mod_cast hij.le
  exact add_le_add_left ((div_le_div_iff_of_pos_right h).mpr h2) _

theorem scen_ts_ge (sc : EmotionScenario) (start now : ℚ) (g : Nat)
    (h : 0 < sc.samples_per_second) :
    ∀ p ∈ (BiosignalGenerator.generate_scenario sc (some start) now g).1,
      start ≤ p.timestamp := by
  intro p hp
  simp only [BiosignalGenerator.generate_scenario, Option.getD_some] at hp
  have hts := List.mem_map_of_mem DataPoint.timestamp hp
  rw [scenLoop_timestamps, List.mem_map] at hts
  obtain ⟨i, _, hEq⟩ := hts
  rw [← hEq]
  have h0 : 0 ≤ (i : ℚ) / sc.samples_per_second :=
    div_nonneg (Nat.cast_nonneg i) h.le
  linarith

theorem scen_head_ts (sc : EmotionScenario) (start now : ℚ) (g : Nat)
    (p : DataPoint)
    (hp : (BiosignalGenerator.generate_scenario sc (some start) now g).1.head? =
      some p) :
    p.timestamp = start := by
  simp only [BiosignalGenerator.generate_scenario, Option.getD_some] at hp
  rcases hl : List.range (truncToZero
      ((sc.duration_seconds : ℚ) * sc.samples_per_second)).toNat with _ | ⟨i, is⟩
  · rw [hl] at hp
    simp [scenLoop] at hp
  · rw [hl] at hp
    have hi : i = 0 := by
      have h0 := congrArg List.head? hl
      rcases hn : (truncToZero
          ((sc.duration_seconds : ℚ) * sc.samples_per_second)).toNat with _ | m
      · rw [hn] at hl; simp at hl
      · rw [hn, List.range_succ_eq_map] at h0
        simpa using h0.symm
    subst hi
    simp only [scenLoop, List.head?_cons, Option.some.injEq] at hp
    rw [← hp]
    simp [scenPoint]

theorem sessionLoop_sound :
    ∀ (scs : List EmotionScenario) (cur : ℚ) (g : Nat),
      (∀ sc ∈ scs, 0 < sc.samples_per_second) →
      List.Chain' (fun p q => p.timestamp ≤ q.timestamp)
          (sessionLoop scs cur g).1 ∧
        ∀ p ∈ (sessionLoop scs cur g).1, cur ≤ p.timestamp := by
  intro scs
  induction scs with
  | nil => intro cur g h; simp [sessionLoop]
  | cons sc rest ih =>
    intro cur g h
    have hsc : 0 < sc.samples_per_second := h sc (by simp)
    have hrest : ∀ x ∈ rest, 0 < x.samples_per_second :=
      fun x hx => h x (by simp [hx])
    have hgeA := scen_ts_ge sc cur 0 g hsc
    have hchainA := scen_chain sc (some cur) 0 g hsc
    have hcur' : cur ≤
        nextStart (BiosignalGenerator.generate_scenario sc (some cur) 0 g).1 cur := by
      rcases hL : (BiosignalGenerator.generate_scenario sc (some cur) 0 g).1.getLast?
        with _ | x
      · simp [nextStart, hL]
      · have hx := hgeA x (mem_of_mem_getLast (Option.mem_def.mpr hL))
        simp only [nextStart, hL]
        linarith
    obtain ⟨hchainR, hgeR⟩ :=
      ih (nextStart (BiosignalGenerator.generate_scenario sc (some cur) 0 g).1 cur)
        (BiosignalGenerator.generate_scenario sc (some cur) 0 g).2 hrest
    constructor
    · simp only [sessionLoop]
      rw [List.chain'_append]
      refine ⟨hchainA, hchainR, ?_⟩
      intro x hx y hy
      have hxEq : nextStart
          (BiosignalGenerator.generate_scenario sc (some cur) 0 g).1 cur =
          x.timestamp + 1 := by
        simp only [nextStart, Option.mem_def.mp hx]
      have hyGe := hgeR y (List.mem_of_mem_head? hy)
      rw [hxEq] at hyGe
      linarith
    · simp only [sessionLoop]
      intro p hp
      rcases List.mem_append.mp hp with hp | hp
      · exact hgeA p hp
      · exact le_trans hcur' (hgeR p hp)

theorem head?_eq_headI {α : Type} [Inhabited α] {l : List α} (h : l ≠ []) :
    l.head? = some l.headI := by
  cases l with
  | nil => simp at h
  | cons a t => rfl

theorem getLast?_eq_getLastI {α : Type} [Inhabited α] {l : List α}
    (h : l ≠ []) : l.getLast? = some l.getLastI := by
  have hs := List.getLast?_isSome.mpr h
  rcases hx : l.getLast? with _ | x
  · rw [hx] at hs; simp at hs
  · simp [List.getLastI_eq_getLast?, hx]

/-- C2: every heart-rate value returned by `generate_hr_sample` lies in
`[30, 200]`; every element of every list returned by
`generate_rr_intervals` lies in `[300, 2000]`; hence every `hr` field and
every `rr_intervals_ms` element of every rendered data point is in range. -/
theorem sample_and_point_ranges (mean std : ℚ) (g : Nat) (count : ℕ)
    (x : ℚ) (sc : EmotionScenario) (st : Option ℚ) (now : ℚ) (g2 : Nat)
    (p : DataPoint) (r : ℚ)
    (hx : x ∈ (generate_rr_intervals mean std count g).1)
    (hp : p ∈ (BiosignalGenerator.generate_scenario sc st now g2).1)
    (hr : r ∈ p.rr_intervals_ms) :
    (30 ≤ (generate_hr_sample mean std g).1 ∧
        (generate_hr_sample mean std g).1 ≤ 200) ∧
      (300 ≤ x ∧ x ≤ 2000) ∧
      (30 ≤ p.hr ∧ p.hr ≤ 200) ∧
      (300 ≤ r ∧ r ≤ 2000) := by
  refine ⟨generate_hr_sample_bounds mean std g,
    generate_rr_intervals_mem_bounds mean std count g x hx, ?_, ?_⟩
  · simp only [BiosignalGenerator.generate_scenario] at hp
    exact (scenLoop_mem_ranges sc _ _ g2 p hp).1
  · simp only [BiosignalGenerator.generate_scenario] at hp
    exact (scenLoop_mem_ranges sc _ _ g2 p hp).2 r hr

/-- C3: in every iteration of the RR walk, the candidate after the
jump-limit adjustment and before clamping is within `100` of the previous
accepted value; the accepted value is the clamp of the candidate and
becomes the new `prev`; the initial `prev` is the `mean` argument. -/
theorem rr_walk_jump_invariant (mean std prev : ℚ) (g : Nat) (n : ℕ) :
    |(rrCandidate mean std prev g).1 - prev| ≤ 100 ∧
      rrStep mean std (n + 1) prev g =
        (max 300 (min 2000 (rrCandidate mean std prev g).1) ::
            (rrStep mean std n
              (max 300 (min 2000 (rrCandidate mean std prev g).1))
              (rrCandidate mean std prev g).2).1,
          (rrStep mean std n
            (max 300 (min 2000 (rrCandidate mean std prev g).1))
            (rrCandidate mean std prev g).2).2) ∧
      generate_rr_intervals mean std n g = rrStep mean std n mean g :=
  ⟨rrCandidate_close mean std prev g, rfl, rfl⟩

/-- Evaluation of the fourteen-step RR walk at mean `920`, `std 0` from
state `1406932606` (the state chain of the LCG model). -/
theorem rr920_chain :
    rrStep 920 0 14 920 1406932606 =
      ([920, 920, 920, 920, 920, 920, 920, 920, 920, 920, 920, 920, 920, 920],
        1695770928) := by
  have hc1 : rrCandidate 920 0 920 1406932606 = (920, 654583775) := by
    norm_num [rrCandidate, gauss, lcgNext]
  have hc2 : rrCandidate 920 0 920 654583775 = (920, 1449466924) := by
    norm_num [rrCandidate, gauss, lcgNext]
  have hc3 : rrCandidate 920 0 920 1449466924 = (920, 229283573) := by
    norm_num [rrCandidate, gauss, lcgNext]
  have hc4 : rrCandidate 920 0 920 229283573 = (920, 1109335178) := by
    norm_num [rrCandidate, gauss, lcgNext]
  have hc5 : rrCandidate 920 0 920 1109335178 = (920, 1051550459) := by
    norm_num [rrCandidate, gauss, lcgNext]
  have hc6 : rrCandidate 920 0 920 1051550459 = (920, 1293799192) := by
    norm_num [rrCandidate, gauss, lcgNext]
  have hc7 : rrCandidate 920 0 920 1293799192 = (920, 794471793) := by
    norm_num [rrCandidate, gauss, lcgNext]
  have hc8 : rrCandidate 920 0 920 794471793 = (920, 551188310) := by
    norm_num [rrCandidate, gauss, lcgNext]
  have hc9 : rrCandidate 920 0 920 551188310 = (920, 803550167) := by
    norm_num [rrCandidate, gauss, lcgNext]
  have hc10 : rrCandidate 920 0 920 803550167 = (920, 1772930244) := by
    norm_num [rrCandidate, gauss, lcgNext]
  have hc11 : rrCandidate 920 0 920 1772930244 = (920, 370913197) := by
    norm_num [rrCandidate, gauss, lcgNext]
  have hc12 : rrCandidate 920 0 920 370913197 = (920, 639546082) := by
    norm_num [rrCandidate, gauss, lcgNext]
  have hc13 : rrCandidate 920 0 920 639546082 = (920, 1381971571) := by
    norm_num [rrCandidate, gauss, lcgNext]
  have hc14 : rrCandidate 920 0 920 1381971571 = (920, 1695770928) := by
    norm_num [rrCandidate, gauss, lcgNext]
  norm_num [rrStep, hc1, hc2, hc3, hc4, hc5, hc6, hc7, hc8,
    hc9, hc10, hc11, hc12, hc13, hc14, min_def, max_def]

theorem hr65_eval : generate_hr_sample 65 0 0 = (65, 12345) := by
  norm_num [generate_hr_sample, gauss, lcgNext, min_def, max_def]

theorem randint_eval : randint 8 15 12345 = (14, 1406932606) := by
  norm_num [randint, lcgNext]

theorem demo_render_eval :
    (BiosignalGenerator.generate_scenario demoScenario (some 0) 0 0).1 =
      [demoPoint] := by
  norm_num [BiosignalGenerator.generate_scenario, demoScenario, demoPoint,
    truncToZero, scenLoop, scenPoint, synthSample, hr65_eval, randint_eval,
    generate_rr_intervals, rr920_chain, List.range_succ, min_def, max_def]

theorem sample_and_point_ranges_witness :
    (30 ≤ (generate_hr_sample 800 0 0).1 ∧
        (generate_hr_sample 800 0 0).1 ≤ 200) ∧
      (300 ≤ (800 : ℚ) ∧ (800 : ℚ) ≤ 2000) ∧
      (30 ≤ demoPoint.hr ∧ demoPoint.hr ≤ 200) ∧
      (300 ≤ (920 : ℚ) ∧ (920 : ℚ) ≤ 2000) := by
  have hx8 : (generate_rr_intervals 800 0 1 0).1 = [800] := by
    norm_num [generate_rr_intervals, rrStep, rrCandidate, gauss, lcgNext,
      min_def, max_def]
  have hx : (800 : ℚ) ∈ (generate_rr_intervals 800 0 1 0).1 := by
    rw [hx8]; simp
  have hp : demoPoint ∈
      (BiosignalGenerator.generate_scenario demoScenario (some 0) 0 0).1 := by
    rw [demo_render_eval]; simp
  have hr : (920 : ℚ) ∈ demoPoint.rr_intervals_ms := by simp [demoPoint]
  exact sample_and_point_ranges 800 0 0 1 800 demoScenario (some 0) 0 0
    demoPoint 920 hx hp hr

/-- C4: `generate_transition` emits exactly `max(transition_seconds, 0)`
points; the interpolation factor is `1` when exactly one sample is
requested, and for more than one sample it is `0` at the first index and
`1` at the last, where factor `0` reproduces the `from` parameter exactly
and factor `1` the `to` parameter. -/
theorem transition_count_and_endpoints (a b : EmotionScenario) (n : ℤ)
    (st : Option ℚ) (now : ℚ) (g : Nat) :
    ((BiosignalGenerator.generate_transition a b n st now g).1.length : ℤ) =
        max n 0 ∧
      interpFactor 1 0 = 1 ∧
      (∀ x y : ℚ, interp x y 0 = x ∧ interp x y 1 = y) ∧
      (1 < n → interpFactor n 0 = 0 ∧ interpFactor n (n.toNat - 1) = 1) := by
  refine ⟨?_, ?_, ?_, ?_⟩
  · simp only [BiosignalGenerator.generate_transition]
    rw [transLoop_length, List.length_range]
    exact Int.toNat_eq_max n
  · simp [interpFactor]
  · intro x y
    exact ⟨by simp [interp], by simp [interp]⟩
  · intro hn
    constructor
    · simp only [interpFactor, if_pos hn]
      simp
    · simp only [interpFactor, if_pos hn]
      have h1 : (1 : ℕ) ≤ n.toNat := by omega
      have h2 : ((n.toNat : ℤ) : ℚ) = (n : ℚ) := by
        rw [Int.toNat_of_nonneg (by omega)]
      push_cast at h2
      rw [Nat.cast_sub h1, h2, Nat.cast_one]
      have hne : (n : ℚ) - 1 ≠ 0 :=
        sub_ne_zero.mpr (by exact_mod_cast hn.ne')
      exact div_self hne

theorem transition_count_and_endpoints_witness :
    ((BiosignalGenerator.generate_transition CALM_SCENARIO STRESSED_SCENARIO
          5 (some 0) 0 0).1.length : ℤ) = max 5 0 ∧
      interpFactor 5 0 = 0 ∧ interpFactor 5 4 = 1 := by
  have h := transition_count_and_endpoints CALM_SCENARIO STRESSED_SCENARIO 5
    (some 0) 0 0
  have h5 := h.2.2.2 (by norm_num)
  exact ⟨h.1, h5.1, by simpa using h5.2⟩

/-- C5: `generate_session` renders descriptors in list order; the next
descriptor starts at the previous render's last timestamp plus one second
(unchanged running clock when a render is empty); in a session `[A, B]`
with `A` ending at `t`, `B`'s first point is at `t + 1 ≥ t + 1`. -/
theorem session_order_and_chaining (A B : EmotionScenario)
    (rest : List EmotionScenario) (start : ℚ) (g : Nat) :
    sessionLoop (A :: rest) start g =
        ((BiosignalGenerator.generate_scenario A (some start) 0 g).1 ++
            (sessionLoop rest
              (nextStart
                (BiosignalGenerator.generate_scenario A (some start) 0 g).1
                start)
              (BiosignalGenerator.generate_scenario A (some start) 0 g).2).1,
          (sessionLoop rest
            (nextStart
              (BiosignalGenerator.generate_scenario A (some start) 0 g).1
              start)
            (BiosignalGenerator.generate_scenario A (some start) 0 g).2).2) ∧
      (∀ p : DataPoint,
        (BiosignalGenerator.generate_scenario A (some start) 0 g).1.getLast? =
            some p →
          nextStart (BiosignalGenerator.generate_scenario A (some start) 0 g).1
              start =
            p.timestamp + 1) ∧
      ((BiosignalGenerator.generate_scenario A (some start) 0 g).1 = [] →
        nextStart (BiosignalGenerator.generate_scenario A (some start) 0 g).1
            start =
          start) ∧
      (∀ p q : DataPoint,
        (BiosignalGenerator.generate_scenario A (some start) 0 g).1.getLast? =
            some p →
          (BiosignalGenerator.generate_scenario B
              (some (nextStart
                (BiosignalGenerator.generate_scenario A (some start) 0 g).1
                start))
              0
              (BiosignalGenerator.generate_scenario A (some start) 0 g).2).1.head? =
              some q →
          p.timestamp + 1 ≤ q.timestamp) := by
  refine ⟨rfl, ?_, ?_, ?_⟩
  · intro p hp
    simp [nextStart, hp]
  · intro hEmpty
    simp [nextStart, hEmpty]
  · intro p q hp hq
    have hq2 := scen_head_ts B _ 0 _ q hq
    have hp2 : nextStart
        (BiosignalGenerator.generate_scenario A (some start) 0 g).1 start =
        p.timestamp + 1 := by
      simp [nextStart, hp]
    rw [hq2, hp2]

theorem session_order_and_chaining_witness :
    (BiosignalGenerator.generate_scenario demoScenario (some 0) 0 777).1.getLastI.timestamp
        + 1 ≤
      (BiosignalGenerator.generate_scenario demoScenario
          (some (nextStart
            (BiosignalGenerator.generate_scenario demoScenario (some 0) 0 777).1
            0))
          0
          (BiosignalGenerator.generate_scenario demoScenario
            (some 0) 0 777).2).1.headI.timestamp := by
  have hlen1 : (BiosignalGenerator.generate_scenario demoScenario
      (some 0) 0 777).1.length = 1 := by
    simp only [BiosignalGenerator.generate_scenario, scenLoop_length,
      List.length_range]
    norm_num [demoScenario, truncToZero]
  have hne1 : (BiosignalGenerator.generate_scenario demoScenario
      (some 0) 0 777).1 ≠ [] := by
    apply List.ne_nil_of_length_pos
    rw [hlen1]
    norm_num
  have hlen2 : (BiosignalGenerator.generate_scenario demoScenario
      (some (nextStart
        (BiosignalGenerator.generate_scenario demoScenario (some 0) 0 777).1
        0))
      0
      (BiosignalGenerator.generate_scenario demoScenario
        (some 0) 0 777).2).1.length = 1 := by
    simp only [BiosignalGenerator.generate_scenario, scenLoop_length,
      List.length_range]
    norm_num [demoScenario, truncToZero]
  have hne2 : (BiosignalGenerator.generate_scenario demoScenario
      (some (nextStart
        (BiosignalGenerator.generate_scenario demoScenario (some 0) 0 777).1
        0))
      0
      (BiosignalGenerator.generate_scenario demoScenario
        (some 0) 0 777).2).1 ≠ [] := by
    apply List.ne_nil_of_length_pos
    rw [hlen2]
    norm_num
  exact (session_order_and_chaining demoScenario demoScenario [] 0 777).2.2.2
    _ _ (getLast?_eq_getLastI hne1) (head?_eq_headI hne2)

theorem trans_chain (a b : EmotionScenario) (n : ℤ) (st : Option ℚ)
    (now : ℚ) (g : Nat) :
    List.Chain' (fun p q => p.timestamp ≤ q.timestamp)
      (BiosignalGenerator.generate_transition a b n st now g).1 := by
  simp only [BiosignalGenerator.generate_transition]
  apply chain_of_map_mono (transLoop_timestamps a b n _ _ g)
    (List.pairwise_lt_range _)
  intro i j hij
  have h2 : (i : ℚ) ≤ (j : ℚ) := by exact_mod_cast hij.le
  linarith

/-- C6: for every sequence returned by `generate_scenario`,
`generate_session`, or `generate_transition` (descriptors with positive
`samples_per_second`, any start time), `timestamps[i] ≤ timestamps[i+1]`
for every valid index `i`. -/
theorem timestamps_monotone (sc : EmotionScenario)
    (scs : List EmotionScenario) (a b : EmotionScenario) (n : ℤ)
    (st1 st2 st3 : Option ℚ) (now1 now2 now3 : ℚ) (g1 g2 g3 : Nat)
    (h1 : 0 < sc.samples_per_second)
    (h2 : ∀ x ∈ scs, 0 < x.samples_per_second) :
    tsMono (BiosignalGenerator.generate_scenario sc st1 now1 g1).1 ∧
      tsMono (BiosignalGenerator.generate_session scs st2 now2 g2).1 ∧
      tsMono (BiosignalGenerator.generate_transition a b n st3 now3 g3).1 := by
  refine ⟨tsMono_of_chain (scen_chain sc st1 now1 g1 h1), ?_,
    tsMono_of_chain (trans_chain a b n st3 now3 g3)⟩
  simp only [BiosignalGenerator.generate_session]
  exact tsMono_of_chain (sessionLoop_sound scs (st2.getD now2) g2 h2).1

theorem timestamps_monotone_witness :
    tsMono (BiosignalGenerator.generate_scenario demoScenario
        (some 3) 0 5).1 ∧
      tsMono (BiosignalGenerator.generate_session
        [demoScenario, demoScenario] (some 3) 0 5).1 ∧
      tsMono (BiosignalGenerator.generate_transition demoScenario
        demoScenario 4 (some 3) 0 5).1 :=
  timestamps_monotone demoScenario [demoScenario, demoScenario]
    demoScenario demoScenario 4 (some 3) (some 3) (some 3) 0 0 0 5 5 5
    (by norm_num [demoScenario])
    (by intro x hx
        simp only [List.mem_cons, List.not_mem_nil, or_false] at hx
        rcases hx with rfl | rfl <;> norm_num [demoScenario])

theorem transLoop_scenarios (fromS toS : EmotionScenario) (total : ℤ)
    (start : ℚ) :
    ∀ (l : List ℕ) (g : Nat),
      (transLoop fromS toS total start l g).1.map DataPoint.scenario =
        l.map (fun i =>
          "Transition (" ++
            toString (truncToZero (interpFactor total i * 100)) ++ "%)") := by
  intro l
  induction l with
  | nil => intro g; simp [transLoop]
  | cons i is ih => intro g; simp [transLoop, transPoint, ih]

/-- C7 (amended): every point of `generate_transition` carries emotion
`"{from.emotion}→{to.emotion}"` and scenario
`"Transition ({int(f * 100)}%)"`, where the percentage is `f * 100`
truncated toward zero (Python `int()`), not rounded to nearest. -/
theorem transition_labels (a b : EmotionScenario) (n : ℤ) (st : Option ℚ)
    (now : ℚ) (g : Nat) (i : ℕ) (p : DataPoint)
    (hp : (BiosignalGenerator.generate_transition a b n st now g).1.get? i =
      some p) :
    p.emotion = a.emotion ++ "→" ++ b.emotion ∧
      p.scenario = "Transition (" ++
        toString (truncToZero (interpFactor n i * 100)) ++ "%)" := by
  simp only [BiosignalGenerator.generate_transition] at hp
  have hi : i < n.toNat := by
    obtain ⟨hi, -⟩ := List.get?_eq_some.mp hp
    rw [transLoop_length, List.length_range] at hi
    exact hi
  have h := congrArg (fun l => l.get? i)
    (transLoop_labels a b n (st.getD now) (List.range n.toNat) g)
  simp only [List.get?_map, hp, List.get?_range hi, Option.map_some',
    Option.some.injEq, Prod.mk.injEq] at h
  exact h

/-- C7 counterexample: at `transition_seconds = 7`, index `1` has factor
`1/6`, whose percentage the code truncates to `16` while rounding to
nearest (as the claim states) gives `17`. -/
theorem transition_label_percentage_counterexample :
    ((BiosignalGenerator.generate_transition CALM_SCENARIO STRESSED_SCENARIO
          7 (some 0) 0 0).1.map DataPoint.scenario).get? 1 =
        some "Transition (16%)" ∧
      "Transition (16%)" ≠
        "Transition (" ++ toString (round (interpFactor 7 1 * 100)) ++ "%)" := by
  constructor
  · simp only [BiosignalGenerator.generate_transition, Option.getD_some]
    have h := transLoop_scenarios CALM_SCENARIO STRESSED_SCENARIO 7 0
      (List.range (7 : ℤ).toNat) 0
    rw [h, List.get?_map, List.get?_range (by norm_num)]
    have h16 : truncToZero (interpFactor 7 1 * 100) = 16 := by
      norm_num [interpFactor, truncToZero]
    simp only [Option.map_some', h16]
    rfl
  · have h17 : round (interpFactor 7 1 * 100) = 17 := by
      norm_num [interpFactor, round_eq]
    rw [h17]
    decide

theorem demo_transition_eval :
    (BiosignalGenerator.generate_transition demoScenario demoScenario 1
        (some 0) 0 0).1 = [demoTransPoint] := by
  norm_num [BiosignalGenerator.generate_transition, transLoop, transPoint,
    interpFactor, interp, synthSample, hr65_eval, randint_eval,
    generate_rr_intervals, rr920_chain, truncToZero, demoScenario,
    demoTransPoint, List.range_succ, min_def, max_def]
  constructor <;> decide

theorem transition_labels_witness :
    demoTransPoint.emotion =
        demoScenario.emotion ++ "→" ++ demoScenario.emotion ∧
      demoTransPoint.scenario = "Transition (" ++
        toString (truncToZero (interpFactor 1 0 * 100)) ++ "%)" :=
  transition_labels demoScenario demoScenario 1 (some 0) 0 0 0 demoTransPoint
    (by rw [demo_transition_eval]; rfl)

theorem runCall_now_irrel (c : GenCall) (h : explicitStart c = true)
    (now1 now2 : ℚ) (g : Nat) : runCall now1 g c = runCall now2 g c := by
  cases c with
  | scen sc start =>
    cases start with
    | none => simp [explicitStart] at h
    | some x => rfl
  | sess scs start =>
    cases start with
    | none => simp [explicitStart] at h
    | some x => rfl
  | trans a b n start =>
    cases start with
    | none => simp [explicitStart] at h
    | some x => rfl

theorem runCalls_now_irrel :
    ∀ (calls : List GenCall) (g : Nat) (now1 now2 : ℚ),
      (∀ c ∈ calls, explicitStart c = true) →
      runCalls now1 g calls = runCalls now2 g calls := by
  intro calls
  induction calls with
  | nil => intro g now1 now2 h; rfl
  | cons c cs ih =>
    intro g now1 now2 h
    have hc := runCall_now_irrel c (h c (by simp)) now1 now2 g
    simp only [runCalls, hc]
    rw [ih _ now1 now2 (fun x hx => h x (by simp [hx]))]

/-- C1 (amended): two runs from generators constructed with the same seed
execute any fixed call sequence identically — bit for bit, timestamps
included — provided every call passes an explicit `start_time`.  The prior
PRNG states `g1`, `g2` and the wall clocks `now1`, `now2` of the two runs
may differ arbitrarily. -/
theorem determinism_same_seed (s : Nat) (g1 g2 : Nat) (now1 now2 : ℚ)
    (calls : List GenCall) (h : ∀ c ∈ calls, explicitStart c = true) :
    runCalls now1 (constructGen (some s) g1) calls =
      runCalls now2 (constructGen (some s) g2) calls :=
  runCalls_now_irrel calls (pySeed s) now1 now2 h

theorem determinism_same_seed_witness :
    runCalls 0 (constructGen (some 42) 0) [GenCall.scen demoScenario (some 5)] =
      runCalls 1 (constructGen (some 42) 123)
        [GenCall.scen demoScenario (some 5)] :=
  determinism_same_seed 42 0 123 0 1 [GenCall.scen demoScenario (some 5)]
    (by intro c hc
        simp only [List.mem_singleton] at hc
        subst hc
        rfl)

/-- C1 counterexample: a call that omits `start_time` defaults to the wall
clock (`datetime.now()`), so two runs at different wall-clock instants
(`now = 0` and `now = 1`) produce different timestamps from the same
seed and the same call sequence. -/
theorem determinism_counterexample :
    runCalls 0 (constructGen (some 42) 0) [GenCall.scen demoScenario none] ≠
      runCalls 1 (constructGen (some 42) 0) [GenCall.scen demoScenario none] := by
  intro hEq
  have h2 := congrArg (fun l => l.map (List.map DataPoint.timestamp)) hEq
  simp only [runCalls, runCall, BiosignalGenerator.generate_scenario,
    Option.getD_none, List.map_cons, List.map_nil,
    scenLoop_timestamps] at h2
  norm_num [demoScenario, truncToZero, List.range_succ] at h2

/-- C8 counterexample: constructing a second generator with a seed between
calls reseeds the shared process-wide PRNG and changes the first
generator's subsequent output. -/
theorem instance_interference_counterexample :
    (generate_hr_sample 65 5 (constructGen (some 42) 0)).1 ≠
      (generate_hr_sample 65 5
        (constructGen (some 0) (constructGen (some 42) 0))).1 := by
  norm_num [generate_hr_sample, gauss, constructGen, pySeed, lcgNext,
    min_def, max_def]

/-- C8 (amended): generator instances all draw from the single shared
PRNG stream, so they are not independent; only constructing an instance
with `seed = None` leaves the stream — and hence every later output of
any other instance — unchanged. -/
theorem unseeded_construction_noninterference (mean std : ℚ) (g : Nat)
    (now : ℚ) (calls : List GenCall) :
    constructGen none g = g ∧
      generate_hr_sample mean std (constructGen none g) =
        generate_hr_sample mean std g ∧
      runCalls now (constructGen none g) calls = runCalls now g calls :=
  ⟨rfl, rfl, rfl⟩

theorem lookup_scenariosTable_isSome (e : String) :
    (scenariosTable.lookup e).isSome = true ↔
      e ∈ ["Calm", "Stressed", "Amused"] := by
  by_cases h1 : e = "Calm"
  · subst h1; simp [scenariosTable, List.lookup]
  · by_cases h2 : e = "Stressed"
    · subst h2; simp [scenariosTable, List.lookup]
    · by_cases h3 : e = "Amused"
      · subst h3; simp [scenariosTable, List.lookup]
      · have b1 := beq_eq_false_iff_ne.mpr h1
        have b2 := beq_eq_false_iff_ne.mpr h2
        have b3 := beq_eq_false_iff_ne.mpr h3
        simp [scenariosTable, List.lookup, b1, b2, b3, h1, h2, h3]

theorem conv_scenario_isOk (e : String) (d : ℤ) (seed : Option Nat)
    (st : Option ℚ) (now : ℚ) (g : Nat) :
    (Syndata.generate_scenario e d seed st now g).isOk = true ↔
      e ∈ ["Calm", "Stressed", "Amused"] := by
  rw [← lookup_scenariosTable_isSome]
  cases hL : scenariosTable.lookup e with
  | none => simp [Syndata.generate_scenario, hL, Except.isOk, Except.toBool]
  | some sc => simp [Syndata.generate_scenario, hL, Except.isOk, Except.toBool]

theorem except_map_isOk {α β : Type} (r : Except String α) (f : α → β) :
    (r.map f).isOk = r.isOk := by
  cases r <;> rfl

theorem resolveEmotions_isOk (d : ℤ) :
    ∀ es : List String,
      (resolveEmotions es d).isOk = true ↔
        ∀ x ∈ es, x ∈ ["Calm", "Stressed", "Amused"] := by
  intro es
  induction es with
  | nil => simp [resolveEmotions, Except.isOk, Except.toBool]
  | cons e rest ih =>
    cases hL : scenariosTable.lookup e with
    | none =>
      have he : ¬ e ∈ ["Calm", "Stressed", "Amused"] := by
        have h := lookup_scenariosTable_isSome e
        rw [hL] at h
        simpa using fun hc => (h.mpr hc)
      constructor
      · intro hc
        exfalso
        have hres : resolveEmotions (e :: rest) d =
            .error ("Unknown emotion: " ++ e) := by
          simp [resolveEmotions, hL]
        rw [hres] at hc
        exact absurd hc (by simp [Except.isOk, Except.toBool])
      · intro hall
        exact absurd (hall e (by simp)) he
    | some sc =>
      have he : e ∈ ["Calm", "Stressed", "Amused"] := by
        have h := lookup_scenariosTable_isSome e
        rw [hL] at h
        exact h.mp rfl
      have hres : resolveEmotions (e :: rest) d =
          (resolveEmotions rest d).map
            (fun l => { sc with duration_seconds := d } :: l) := by
        simp [resolveEmotions, hL]
      rw [hres, except_map_isOk, ih]
      constructor
      · intro hall x hx
        rcases List.mem_cons.mp hx with rfl | hx
        · exact he
        · exact hall x hx
      · intro hall x hx
        exact hall x (List.mem_cons_of_mem _ hx)

theorem conv_session_isOk (es : List String) (d : ℤ) (inc : Bool)
    (seed : Option Nat) (st : Option ℚ) (now : ℚ) (g : Nat) :
    (Syndata.generate_session es d inc seed st now g).isOk = true ↔
      ∀ x ∈ es, x ∈ ["Calm", "Stressed", "Amused"] := by
  rw [← resolveEmotions_isOk d es]
  simp only [Syndata.generate_session, except_map_isOk]

/-- C9: the convenience `generate_scenario`/`generate_session` raise
`ValueError` exactly when the requested emotion name (for sessions: some
name in the list) is not one of `"Calm"`, `"Stressed"`, `"Amused"`. -/
theorem convenience_unknown_name_error (e : String) (d : ℤ)
    (seed : Option Nat) (st : Option ℚ) (now : ℚ) (g : Nat)
    (es : List String) (d2 : ℤ) (inc : Bool) (seed2 : Option Nat)
    (st2 : Option ℚ) (now2 : ℚ) (g2 : Nat) :
    ((Syndata.generate_scenario e d seed st now g).isOk = true ↔
        e ∈ ["Calm", "Stressed", "Amused"]) ∧
      ((Syndata.generate_session es d2 inc seed2 st2 now2 g2).isOk = true ↔
        ∀ x ∈ es, x ∈ ["Calm", "Stressed", "Amused"]) :=
  ⟨conv_scenario_isOk e d seed st now g,
    conv_session_isOk es d2 inc seed2 st2 now2 g2⟩

theorem convenience_unknown_name_error_witness :
    (Syndata.generate_scenario "Calm" 5 none none 0 0).isOk = true ∧
      (Syndata.generate_session ["Calm", "Bogus"] 5 false none none 0 0).isOk =
        false := by
  have h := convenience_unknown_name_error "Calm" 5 none none 0 0
    ["Calm", "Bogus"] 5 false none none 0 0
  constructor
  · exact h.1.mpr (by simp)
  · have h2 : ¬ ((Syndata.generate_session ["Calm", "Bogus"] 5 false none
        none 0 0).isOk = true) := by
      intro hc
      have := h.2.mp hc "Bogus" (by simp)
      simp at this
    simpa using h2

/-- C10: the render methods perform no attribute assignment on their
descriptor arguments: the descriptor field records observable after a
call equal the records passed in. -/
theorem methods_preserve_descriptors (sc : EmotionScenario)
    (scs : List EmotionScenario) (a b : EmotionScenario) (n : ℤ)
    (st1 st2 st3 : Option ℚ) (now1 now2 now3 : ℚ) (g1 g2 g3 : Nat) :
    (scenarioCall sc st1 now1 g1).2 = sc ∧
      (sessionCall scs st2 now2 g2).2 = scs ∧
      (transitionCall a b n st3 now3 g3).2 = (a, b) :=
  ⟨rfl, rfl, rfl⟩

end Syndata
